import Mathlib

/-!
# The Graph-Cut RANSAC example driver (`src/main.cpp`)

A shallow embedding of the driver program: scene selection, path
initialisation, the configuration of the engine and the order in which the
external collaborators (file system, image I/O, feature detection, the
GC-RANSAC engine) are called.

Every call that leaves the driver is recorded as an `Event`; a function of the
driver returns the list of events it performs, in program order, next to its
C++ result.  The collaborators themselves are not part of `main.cpp`; their
answers are supplied by a `Collaborators` record.
-/

namespace GCRansac

/-- The C++ type `double`.  The driver only stores and forwards such values, and
the only literals involved are short decimals that are compared with `0` and
`1`, so they are represented by the rational they denote. -/
abbrev Double := ℚ

/-- The enumeration `Problem` of `main.cpp`. -/
inductive Problem where
  | FundamentalMatrixFitting
  | HomographyFitting
  deriving DecidableEq, Repr

/-- The fields of `gcransac.settings` that the driver assigns (the declaration
of the settings type lives in `GCRANSAC.h`). -/
structure Settings where
  threshold : Double
  spatial_coherence_weight : Double
  confidence : Double
  max_local_optimization_number : Int
  max_iteration_number : Int
  min_iteration_number : Int
  neighborhood_sphere_radius : Double
  core_number : Int
  deriving DecidableEq, Repr

/-- The part of a `GCRANSAC<...>` object the driver writes: the value handed to
`setFPS` and the public `settings`. -/
structure GCRANSAC where
  fps : Int
  settings : Settings
  deriving DecidableEq, Repr

/-- The fields of `RANSACStatistics` the driver reads. -/
structure RANSACStatistics where
  inliers : List Int
  local_optimization_number : Int
  graph_cut_number : Int
  iteration_number : Int
  deriving DecidableEq, Repr

/-- The calls and outputs of the driver, in program order.  `Mdl` is the type of
the estimated model (`FundamentalMatrix`). -/
inductive Event (Mdl : Type) where
  | srand (seed : Nat)
  | printf (text : String)
  | fprintf_stderr (text : String)
  | stat (dir : String)
  | _mkdir (dir : String)
  | imread (path : String)
  | detectFeatures (path : String)
  | run (gcransac : GCRANSAC)
  | returned (model : Mdl) (statistics : RANSACStatistics)
  | printElapsed
  | printStatistics (statistics : RANSACStatistics)
  | drawMatches (inliers : List Int)
  | imwrite (path : String)
  | savePointsToFile (path : String) (inliers : List Int)
  | showImage (window : String) (width height : Int) (wait : Bool)
  deriving DecidableEq, Repr

/-- The answers of everything the driver calls but does not define.
`stat`, `_mkdir` and `imread` answer per path (`imread` gives `none` for an
image that is `empty()`); `gcransac` is the default-constructed engine object;
`srand` installs the state of the C random generator and `run` is the engine:
it receives the generator state, the configured object and the points, and
hands back the model, the statistics and the generator state it leaves. -/
structure Collaborators (Img Pts Mdl Rng : Type) where
  stat : String → Int
  _mkdir : String → Int
  imread : String → Option Img
  detectFeatures : String → Img → Img → Pts
  gcransac : GCRANSAC
  srand : Nat → Rng
  run : Rng → GCRANSAC → Pts → (Mdl × RANSACStatistics) × Rng

/-- The five path variables that `main` declares per scene and passes to
`initializeScene` by reference. -/
structure ScenePaths where
  src_image_path : String
  dst_image_path : String
  input_correspondence_path : String
  output_correspondence_path : String
  output_matched_image_path : String
  deriving DecidableEq, Repr

/-- The result of `initializeScene`: the returned flag, the five referenced
strings as they are on return, and the calls made. -/
structure InitResult (Mdl : Type) where
  ok : Bool
  paths : ScenePaths
  trace : List (Event Mdl)

section Driver

variable {Img Pts Mdl Rng : Type}

/-- The function `getAvailableTestScenes`. -/
def getAvailableTestScenes : Problem → List String
  | .FundamentalMatrixFitting => ["head", "johnssona", "Kyoto"]
  | .HomographyFitting => []

/-- The function `initializeScene`: `paths` holds the contents of the five referenced strings
at the call. -/
def initializeScene (c : Collaborators Img Pts Mdl Rng) (scene_name_ : String)
    (paths : ScenePaths) : InitResult Mdl :=
  let root_dir : String := ""
  let dir := root_dir ++ "results/" ++ scene_name_
  let assigned : ScenePaths :=
    { src_image_path :=
        root_dir ++ "data/" ++ scene_name_ ++ "/" ++ scene_name_ ++ "1.jpg"
      dst_image_path :=
        root_dir ++ "data/" ++ scene_name_ ++ "/" ++ scene_name_ ++ "2.jpg"
      input_correspondence_path :=
        root_dir ++ "results/" ++ scene_name_ ++ "/" ++ scene_name_
          ++ "_points_with_no_annotation.txt"
      output_correspondence_path :=
        root_dir ++ "results/" ++ scene_name_ ++ "/result_" ++ scene_name_ ++ ".txt"
      output_matched_image_path :=
        root_dir ++ "results/" ++ scene_name_ ++ "/matches_" ++ scene_name_ ++ ".png" }
  if c.stat dir ≠ 0 then
    if c._mkdir dir ≠ 0 then
      { ok := false, paths := paths,
        trace := [.stat dir, ._mkdir dir,
          .fprintf_stderr "Error while creating a new folder in 'results'\n"] }
    else
      { ok := true, paths := assigned, trace := [.stat dir, ._mkdir dir] }
  else
    { ok := true, paths := assigned, trace := [.stat dir] }

/-- Lines 201-210 of `testFundamentalMatrixFitting`: `setFPS` followed by the
eight assignments to `gcransac.settings`, applied to the default-constructed
object `g`. -/
def configure (g : GCRANSAC)
    (confidence_ inlier_outlier_threshold_ spatial_coherence_weight_
      neighborhood_size_ : Double) (fps_ : Int) : GCRANSAC :=
  let g : GCRANSAC := { g with fps := fps_ }
  let g : GCRANSAC := { g with settings.threshold := inlier_outlier_threshold_ }
  let g : GCRANSAC :=
    { g with settings.spatial_coherence_weight := spatial_coherence_weight_ }
  let g : GCRANSAC := { g with settings.confidence := confidence_ }
  let g : GCRANSAC := { g with settings.max_local_optimization_number := 20 }
  let g : GCRANSAC := { g with settings.max_iteration_number := 5000 }
  let g : GCRANSAC := { g with settings.min_iteration_number := 50 }
  let g : GCRANSAC := { g with settings.neighborhood_sphere_radius := neighborhood_size_ }
  let g : GCRANSAC := { g with settings.core_number := 4 }
  g

/-- The function `testFundamentalMatrixFitting`, with the parameters in the order of its
definition.  `rng` is the state of the C random generator at the call; the
result is the list of calls made and the generator state on return. -/
def testFundamentalMatrixFitting (c : Collaborators Img Pts Mdl Rng) (rng : Rng)
    (source_path_ destination_path_ out_correspondence_path_
      in_correspondence_path_ output_match_image_path_ : String)
    (confidence_ inlier_outlier_threshold_ spatial_coherence_weight_
      neighborhood_size_ : Double) (fps_ : Int) : List (Event Mdl) × Rng :=
  let reads : List (Event Mdl) := [.imread source_path_, .imread destination_path_]
  match c.imread source_path_ with
  | none =>
    (reads ++
      [.printf ("An error occured while loading image '" ++ source_path_ ++ "'\n")], rng)
  | some source_image =>
    match c.imread destination_path_ with
    | none =>
      (reads ++
        [.printf ("An error occured while loading image '" ++ destination_path_ ++ "'\n")],
        rng)
    | some destination_image =>
      let points := c.detectFeatures in_correspondence_path_ source_image destination_image
      let gcransac := configure c.gcransac confidence_ inlier_outlier_threshold_
        spatial_coherence_weight_ neighborhood_size_ fps_
      let out := c.run rng gcransac points
      let model := out.1.1
      let statistics := out.1.2
      (reads ++
        [.detectFeatures in_correspondence_path_,
         .run gcransac,
         .returned model statistics,
         .printElapsed,
         .printStatistics statistics,
         .drawMatches statistics.inliers,
         .printf ("Saving the matched images to file '" ++ output_match_image_path_
            ++ "'.\n"),
         .imwrite output_match_image_path_,
         .printf ("Saving the inlier correspondences to file '"
            ++ out_correspondence_path_ ++ "'.\n"),
         .savePointsToFile out_correspondence_path_ statistics.inliers,
         .printf "Press a button to continue...\n",
         .showImage "Inlier correspondences" 1600 1200 true],
        out.2)

/-- The conversion `static_cast<int>` of a `time_t` value: reduction to the
32-bit signed range. -/
def castInt (t : Int) : Int := (t + 2147483648) % 4294967296 - 2147483648

/-- The conversion of an `int` argument to the `unsigned int` parameter of `srand`. -/
def castUnsigned (i : Int) : Nat := (i % 4294967296).toNat

/-- The constant `confidence` of `main`. -/
def confidence : Double := 0.99
/-- The constant `fps` of `main`. -/
def fps : Int := -1
/-- The constant `inlier_outlier_threshold` of `main`. -/
def inlier_outlier_threshold : Double := 2.00
/-- The constant `spatial_coherence_weight` of `main`. -/
def spatial_coherence_weight : Double := 0.14
/-- The constant `neighborhood_size` of `main`. -/
def neighborhood_size : Double := 20.0

/-- The body of the `for` loop of `main`, over the scenes still to be processed.
The five strings are declared (empty) in every round; the flag returned by
`initializeScene` is not looked at. -/
def mainLoop (c : Collaborators Img Pts Mdl Rng) : List String → Rng → List (Event Mdl)
  | [], _ => []
  | scene :: rest, rng =>
    let init : InitResult Mdl := initializeScene c scene ⟨"", "", "", "", ""⟩
    let src_image_path := init.paths.src_image_path
    let dst_image_path := init.paths.dst_image_path
    let input_correspondence_path := init.paths.input_correspondence_path
    let output_correspondence_path := init.paths.output_correspondence_path
    let output_matched_image_path := init.paths.output_matched_image_path
    let fit := testFundamentalMatrixFitting c rng
      src_image_path
      dst_image_path
      input_correspondence_path
      output_correspondence_path
      output_matched_image_path
      confidence
      inlier_outlier_threshold
      spatial_coherence_weight
      neighborhood_size
      fps
    [.printf ("Processed scene = '" ++ scene ++ "'\n")] ++ init.trace ++ fit.1
      ++ [.printf "\n"] ++ mainLoop c rest fit.2

/-- The function `main`: `now` is the value returned by `time(NULL)`.  The result is the list
of calls made; the exit status is always `0`. -/
def main (c : Collaborators Img Pts Mdl Rng) (now : Int) : List (Event Mdl) :=
  let seed := castUnsigned (castInt now)
  [.srand seed,
   .printf ("------------------------------------------------------------\n"
     ++ "Fundamental matrix fitting\n"
     ++ "------------------------------------------------------------\n")]
    ++ mainLoop c (getAvailableTestScenes .FundamentalMatrixFitting) (c.srand seed)

/-! ### Observations on a list of events -/

/-- The paths handed to `detectFeatures`, in order. -/
def detectFeaturesPaths (t : List (Event Mdl)) : List String :=
  t.filterMap fun e => match e with
    | .detectFeatures p => some p
    | _ => none

/-- The paths handed to `savePointsToFile`, in order. -/
def savePointsToFilePaths (t : List (Event Mdl)) : List String :=
  t.filterMap fun e => match e with
    | .savePointsToFile p _ => some p
    | _ => none

/-- The directories handed to `_mkdir`, in order. -/
def mkdirCalls (t : List (Event Mdl)) : List String :=
  t.filterMap fun e => match e with
    | ._mkdir d => some d
    | _ => none

/-- The engine objects on which `run` is started, in order. -/
def runConfigs (t : List (Event Mdl)) : List GCRANSAC :=
  t.filterMap fun e => match e with
    | .run g => some g
    | _ => none

end Driver

/-! ### Concrete collaborators used to evaluate the driver -/

/-- A file system in which every directory exists and every image loads; the
engine hands back model `0` and no inliers. -/
def demo : Collaborators Unit Unit Nat Nat where
  stat := fun _ => 0
  _mkdir := fun _ => 0
  imread := fun _ => some ()
  detectFeatures := fun _ _ _ => ()
  gcransac := ⟨0, ⟨0, 0, 0, 0, 0, 0, 0, 0⟩⟩
  srand := fun seed => seed
  run := fun rng _ _ => ((0, ⟨[], 0, 0, 0⟩), rng)

/-- A file system in which no directory exists yet and `_mkdir` succeeds. -/
def freshDisk : Collaborators Unit Unit Nat Nat :=
  { demo with stat := fun _ => -1 }

/-! ### The engine, as far as the specification describes it

`GCRANSAC.h` is not part of `main.cpp`.  The definitions below follow the
specification's sections 4.5, 4.6 and 7.  Sampling, estimation, scoring and
local optimisation enter only through what the loop observes of them. -/

/-- Modelled from the spec: the fatal errors of section 7 that the engine of
the missing `GCRANSAC.h` surfaces to its caller. -/
inductive EngineError where
  | InvalidConfigurationError
  | EmptyInputError
  deriving DecidableEq, Repr

/-- Modelled from the spec: `clamp(bound, min_iteration_number,
max_iteration_number)` of section 4.5 (the termination criterion is in the
missing `GCRANSAC.h`). -/
def clamp (bound lo hi : Int) : Int :=
  if bound < lo then lo else if hi < bound then hi else bound

/-- Modelled from the spec: what the loop of the missing engine observes of its
input and of the steps 2 to 6 of an iteration.  `accepted_bound k` is
`some b` when iteration `k` adopts a new best model, `b` being the value
`ceil(log(1 - confidence) / log(1 - w^m))` recomputed for it;
`initial_bound` is the bound before any model is accepted;
`budget_exceeded k` tells whether the elapsed time exceeds the budget when
iteration `k` is about to start. -/
structure RunObservations where
  correspondence_count : Nat
  minimal_sample_size : Nat
  initial_bound : Int
  accepted_bound : Nat → Option Int
  budget_exceeded : Nat → Bool

/-- Modelled from the spec: the stop condition of section 4.5 for the missing
engine, `iteration_count ≥ bound OR elapsed_time > budget`, with the effective
(clamped) bound and the second clause only when a budget is configured
(`fps` other than `-1`). -/
def stopCondition (g : GCRANSAC) (o : RunObservations) (iteration_count : Nat)
    (bound : Int) : Prop :=
  clamp bound g.settings.min_iteration_number g.settings.max_iteration_number
      ≤ (iteration_count : Int)
    ∨ (g.fps ≠ -1 ∧ o.budget_exceeded iteration_count = true)

instance (g : GCRANSAC) (o : RunObservations) (k : Nat) (b : Int) :
    Decidable (stopCondition g o k b) := by
  unfold stopCondition; infer_instance

/-- Modelled from the spec: the loop of section 4.6 of the missing engine, from
the state (`iteration_number`, `bound`): step 1 evaluates the termination
criterion and leaves the loop when it holds; otherwise the iteration runs, the
bound is recomputed if a new best model was adopted (step 5) and
`iteration_number` is incremented (step 7).  The result is the final
`iteration_number`. -/
def engineLoop (g : GCRANSAC) (o : RunObservations) (iteration_number : Nat)
    (bound : Int) : Nat :=
  if stopCondition g o iteration_number bound then iteration_number
  else engineLoop g o (iteration_number + 1)
    ((o.accepted_bound iteration_number).getD bound)
termination_by
  (max g.settings.min_iteration_number g.settings.max_iteration_number
    - iteration_number).toNat
decreasing_by
  rename_i h
  have h2 : ¬ clamp bound g.settings.min_iteration_number
      g.settings.max_iteration_number ≤ (iteration_number : Int) :=
    fun hc => h (Or.inl hc)
  unfold clamp at h2
  split_ifs at h2 <;> omega

/-- Modelled from the spec: a run of the missing engine, reporting
`statistics.iteration_number`.  Fewer correspondences than the minimal sample
size is the fatal `EmptyInputError` and no iteration executes; otherwise the
loop starts from iteration count `0`.  The settings are not examined here: the
specification places their validation at construction (section 7). -/
def engineRun (g : GCRANSAC) (o : RunObservations) : Except EngineError Nat :=
  if o.correspondence_count < o.minimal_sample_size then
    .error .EmptyInputError
  else
    .ok (engineLoop g o 0 o.initial_bound)

/-- Observations of a run over 200 correspondences with minimal sample size 7
in which the third iteration adopts a model whose recomputed bound is 12. -/
def sampleObservations : RunObservations where
  correspondence_count := 200
  minimal_sample_size := 7
  initial_bound := 100000
  accepted_bound := fun k => if k = 2 then some 12 else none
  budget_exceeded := fun _ => false

/-! ## Theorems -/

section Paths

variable {Img Pts Mdl Rng : Type}

/-- The runs started by `testFundamentalMatrixFitting`: one, on the object
configured from the arguments, when both images load, and none otherwise. -/
theorem runConfigs_testFundamentalMatrixFitting (c : Collaborators Img Pts Mdl Rng)
    (rng : Rng) (src dst out_c in_c img : String) (conf thr scw nb : Double) (f : Int) :
    runConfigs (testFundamentalMatrixFitting c rng src dst out_c in_c img
        conf thr scw nb f).1
      = if (c.imread src).isSome ∧ (c.imread dst).isSome
        then [configure c.gcransac conf thr scw nb f] else [] := by
  unfold testFundamentalMatrixFitting
  cases h1 : c.imread src with
  | none => simp [runConfigs]
  | some a =>
    cases h2 : c.imread dst with
    | none => simp [runConfigs]
    | some b => simp [runConfigs]

/-- No run is started by `initializeScene`. -/
theorem runConfigs_initializeScene (c : Collaborators Img Pts Mdl Rng) (s : String)
    (before : ScenePaths) : runConfigs (initializeScene c s before).trace = [] := by
  unfold initializeScene
  simp only [String.empty_append]
  split_ifs <;> simp [runConfigs]

/-- Every run started in the loop of `main` is on the object configured from the
constants of `main`. -/
theorem runConfigs_mainLoop (c : Collaborators Img Pts Mdl Rng) (scenes : List String) :
    ∀ (rng : Rng), ∀ g ∈ runConfigs (mainLoop c scenes rng),
      g = configure c.gcransac confidence inlier_outlier_threshold
        spatial_coherence_weight neighborhood_size fps := by
  induction scenes with
  | nil => intro rng g hg; simp [mainLoop, runConfigs] at hg
  | cons scene rest ih =>
    intro rng g hg
    have hsplit : ∀ (a b : List (Event Mdl)),
        runConfigs (a ++ b) = runConfigs a ++ runConfigs b := by
      intro a b; simp [runConfigs]
    simp only [mainLoop, hsplit, runConfigs_initializeScene,
      runConfigs_testFundamentalMatrixFitting, List.mem_append] at hg
    rcases hg with ((((hg | hg) | hg) | hg) | hg)
    · simp [runConfigs] at hg
    · simp at hg
    · split_ifs at hg
      · simpa using hg
      · simp at hg
    · simp [runConfigs] at hg
    · exact ih _ g hg

/-- Claim C6: whenever `initializeScene` returns true for scene `s`, the five
referenced strings are `data/s/s1.jpg`, `data/s/s2.jpg`,
`results/s/s_points_with_no_annotation.txt`, `results/s/result_s.txt` and
`results/s/matches_s.png`, whatever they held before the call. -/
theorem initializeScene_paths (c : Collaborators Img Pts Mdl Rng) (s : String)
    (before : ScenePaths) (h : (initializeScene c s before).ok = true) :
    (initializeScene c s before).paths =
      { src_image_path := "data/" ++ s ++ "/" ++ s ++ "1.jpg"
        dst_image_path := "data/" ++ s ++ "/" ++ s ++ "2.jpg"
        input_correspondence_path :=
          "results/" ++ s ++ "/" ++ s ++ "_points_with_no_annotation.txt"
        output_correspondence_path := "results/" ++ s ++ "/result_" ++ s ++ ".txt"
        output_matched_image_path := "results/" ++ s ++ "/matches_" ++ s ++ ".png" } := by
  unfold initializeScene at h ⊢
  simp only [String.empty_append] at h ⊢
  split_ifs at h ⊢ with h1 h2 <;> rfl

/-- Claim C7: `initializeScene` calls `_mkdir` (once, on `results/<scene>`)
exactly when `stat` on that directory returns non-zero; it returns false
exactly when both `stat` and `_mkdir` return non-zero, and true otherwise. -/
theorem initializeScene_mkdir (c : Collaborators Img Pts Mdl Rng) (s : String)
    (before : ScenePaths) :
    mkdirCalls (initializeScene c s before).trace
        = (if c.stat ("results/" ++ s) ≠ 0 then ["results/" ++ s] else [])
      ∧ ((initializeScene c s before).ok = false
          ↔ c.stat ("results/" ++ s) ≠ 0 ∧ c._mkdir ("results/" ++ s) ≠ 0)
      ∧ ((initializeScene c s before).ok = true
          ↔ ¬ (c.stat ("results/" ++ s) ≠ 0 ∧ c._mkdir ("results/" ++ s) ≠ 0)) := by
  unfold initializeScene
  simp only [String.empty_append]
  split_ifs with h1 h2 <;> simp_all [mkdirCalls]

/-- Claim C3: every engine object on which `main` starts a run satisfies the
declared constraints with the values confidence 0.99, threshold 2.00, spatial
coherence weight 0.14, radius 20.0, 20 local optimisations, 50 to 5000
iterations, 4 cores and the sentinel `fps = -1`; and for every argument list of
`testFundamentalMatrixFitting` the started run has
`min_iteration_number ≤ max_iteration_number`,
`max_local_optimization_number ≥ 0` and `core_number ≥ 1`. -/
theorem main_configurations_satisfy_constraints (c : Collaborators Img Pts Mdl Rng)
    (now : Int) (rng : Rng) (src dst out_c in_c img : String)
    (conf thr scw nb : Double) (f : Int) :
    (∀ g ∈ runConfigs (main c now),
        ((0 < g.settings.confidence ∧ g.settings.confidence < 1) ∧
          0 < g.settings.threshold ∧ 0 ≤ g.settings.spatial_coherence_weight ∧
          0 < g.settings.neighborhood_sphere_radius ∧
          0 ≤ g.settings.max_local_optimization_number ∧
          g.settings.min_iteration_number ≤ g.settings.max_iteration_number ∧
          1 ≤ g.settings.core_number) ∧ g.fps = -1 ∧
        g.settings = { threshold := 2.00, spatial_coherence_weight := 0.14,
                       confidence := 0.99, max_local_optimization_number := 20,
                       max_iteration_number := 5000, min_iteration_number := 50,
                       neighborhood_sphere_radius := 20.0, core_number := 4 })
      ∧ (∀ g ∈ runConfigs (testFundamentalMatrixFitting c rng src dst out_c in_c img
            conf thr scw nb f).1,
          g.settings.min_iteration_number ≤ g.settings.max_iteration_number ∧
          0 ≤ g.settings.max_local_optimization_number ∧ 1 ≤ g.settings.core_number) := by
  constructor
  · intro g hg
    have hg' : g ∈ runConfigs (mainLoop c
        (getAvailableTestScenes .FundamentalMatrixFitting)
        (c.srand (castUnsigned (castInt now)))) := by
      simpa [main, runConfigs] using hg
    rw [runConfigs_mainLoop c _ _ g hg']
    refine ⟨?_, rfl, ?_⟩
    · simp only [configure, confidence,
        inlier_outlier_threshold, spatial_coherence_weight, neighborhood_size]
      norm_num
    · simp only [configure, confidence, inlier_outlier_threshold,
        spatial_coherence_weight, neighborhood_size]
  · intro g hg
    rw [runConfigs_testFundamentalMatrixFitting] at hg
    split_ifs at hg
    · have hg' : g = configure c.gcransac conf thr scw nb f := by simpa using hg
      subst hg'
      simp [configure]
    · simp at hg

/-- Claim C2, as the driver behaves: `testFundamentalMatrixFitting` checks neither
the confidence nor the threshold.  When both images load it starts exactly one
run, on an object whose settings carry `confidence_` and
`inlier_outlier_threshold_` unchanged (and whose `fps` is `fps_`); when an image
fails to load it starts none. -/
theorem run_started_with_given_settings (c : Collaborators Img Pts Mdl Rng)
    (rng : Rng) (src dst out_c in_c img : String) (conf thr scw nb : Double) (f : Int) :
    ((c.imread src).isSome ∧ (c.imread dst).isSome →
        ∃ g, runConfigs (testFundamentalMatrixFitting c rng src dst out_c in_c img
              conf thr scw nb f).1 = [g]
          ∧ g.settings.confidence = conf ∧ g.settings.threshold = thr ∧ g.fps = f)
      ∧ (¬ ((c.imread src).isSome ∧ (c.imread dst).isSome) →
        runConfigs (testFundamentalMatrixFitting c rng src dst out_c in_c img
              conf thr scw nb f).1 = []) := by
  rw [runConfigs_testFundamentalMatrixFitting]
  constructor
  · intro h
    exact ⟨configure c.gcransac conf thr scw nb f, by rw [if_pos h], rfl, rfl, rfl⟩
  · intro h
    rw [if_neg h]

end Paths

/-- Witness of `initializeScene_paths` for the scene `head` on a disk where the
result directory has to be created. -/
theorem initializeScene_paths_witness :
    (initializeScene freshDisk "head" ⟨"a", "b", "c", "d", "e"⟩).ok = true
      ∧ (initializeScene freshDisk "head" ⟨"a", "b", "c", "d", "e"⟩).paths =
        { src_image_path := "data/head/head1.jpg"
          dst_image_path := "data/head/head2.jpg"
          input_correspondence_path := "results/head/head_points_with_no_annotation.txt"
          output_correspondence_path := "results/head/result_head.txt"
          output_matched_image_path := "results/head/matches_head.png" } :=
  ⟨by decide, initializeScene_paths freshDisk "head" ⟨"a", "b", "c", "d", "e"⟩ (by decide)⟩

/-- With limits in order, `clamp` lies between them. -/
theorem clamp_mem (b lo hi : Int) (h : lo ≤ hi) :
    lo ≤ clamp b lo hi ∧ clamp b lo hi ≤ hi := by
  unfold clamp
  split_ifs <;> omega

/-- Without a time budget and with limits in order, the loop started at
iteration count `k` ends at a count that is at least the lower limit and at most
the larger of `k` and the upper limit. -/
theorem engineLoop_bounds (g : GCRANSAC) (o : RunObservations) (hfps : g.fps = -1)
    (hle : g.settings.min_iteration_number ≤ g.settings.max_iteration_number)
    (k : Nat) (b : Int) :
    g.settings.min_iteration_number ≤ (engineLoop g o k b : Int)
      ∧ (engineLoop g o k b : Int) ≤ max (k : Int) g.settings.max_iteration_number := by
  induction k, b using engineLoop.induct g o with
  | case1 k b hstop =>
    rw [engineLoop, if_pos hstop]
    have hc := clamp_mem b _ _ hle
    rcases hstop with hstop | hstop
    · omega
    · exact absurd hfps hstop.1
  | case2 k b hstop ih =>
    rw [engineLoop, if_neg hstop]
    have hc := clamp_mem b _ _ hle
    have hlt : ¬ clamp b g.settings.min_iteration_number
        g.settings.max_iteration_number ≤ (k : Int) := fun hcl => hstop (Or.inl hcl)
    push_cast at ih
    omega

/-- Claim C5: on an engine object configured by `testFundamentalMatrixFitting`
without time budget (`fps_ = -1`), a run reports an iteration number between 50
and 5000 whenever it reports statistics, and it does so whenever there are at
least as many correspondences as the minimal sample size. -/
theorem iteration_number_within_limits (g₀ : GCRANSAC) (conf thr scw nb : Double)
    (o : RunObservations) :
    (∀ n, engineRun (configure g₀ conf thr scw nb (-1)) o = .ok n → 50 ≤ n ∧ n ≤ 5000)
      ∧ (o.minimal_sample_size ≤ o.correspondence_count →
          ∃ n, engineRun (configure g₀ conf thr scw nb (-1)) o = .ok n) := by
  have hb := engineLoop_bounds (configure g₀ conf thr scw nb (-1)) o rfl
    (by simp [configure]) 0 o.initial_bound
  have hmin : (configure g₀ conf thr scw nb (-1)).settings.min_iteration_number = 50 := rfl
  have hmax : (configure g₀ conf thr scw nb (-1)).settings.max_iteration_number = 5000 := rfl
  rw [hmin, hmax] at hb
  constructor
  · intro n hn
    unfold engineRun at hn
    split_ifs at hn
    injection hn with hn
    subst hn
    omega
  · intro hcount
    refine ⟨engineLoop (configure g₀ conf thr scw nb (-1)) o 0 o.initial_bound, ?_⟩
    unfold engineRun
    rw [if_neg (by omega)]

/-- Witness of `iteration_number_within_limits`: 200 correspondences, a model
adopted in the third iteration with recomputed bound 12; the run still reports
between 50 and 5000 iterations. -/
theorem iteration_number_within_limits_witness :
    sampleObservations.minimal_sample_size ≤ sampleObservations.correspondence_count
      ∧ ∃ n, engineRun (configure demo.gcransac 0.99 2.00 0.14 20.0 (-1))
            sampleObservations = .ok n ∧ 50 ≤ n ∧ n ≤ 5000 :=
  have t := iteration_number_within_limits demo.gcransac 0.99 2.00 0.14 20.0
    sampleObservations
  ⟨by decide, (t.2 (by decide)).elim fun n hn => ⟨n, hn, t.1 n hn⟩⟩

/-- Claim C1 at the scenes of `main`, every image loading: the paths reaching
`detectFeatures` are the `result_<scene>.txt` files and the paths reaching
`savePointsToFile` are the `<scene>_points_with_no_annotation.txt` files, the
reverse of what the comments at the call in `main` announce. -/
theorem main_correspondence_paths_swapped :
    detectFeaturesPaths (main demo 0)
        = ["results/head/result_head.txt",
           "results/johnssona/result_johnssona.txt",
           "results/Kyoto/result_Kyoto.txt"]
      ∧ savePointsToFilePaths (main demo 0)
        = ["results/head/head_points_with_no_annotation.txt",
           "results/johnssona/johnssona_points_with_no_annotation.txt",
           "results/Kyoto/Kyoto_points_with_no_annotation.txt"] := by
  constructor <;> rfl

/-- Claim C2 fails as stated: with both images loading, a call with confidence
1.5 starts the run with confidence 1.5, and a call with threshold 0 starts the
run with threshold 0. -/
theorem run_started_with_invalid_settings :
    runConfigs (testFundamentalMatrixFitting demo 0 "data/head/head1.jpg"
        "data/head/head2.jpg" "out.txt" "in.txt" "matches.png"
        1.5 2.00 0.14 20.0 (-1)).1
        = [{ fps := -1,
             settings := { threshold := 2.00, spatial_coherence_weight := 0.14,
                           confidence := 1.5, max_local_optimization_number := 20,
                           max_iteration_number := 5000, min_iteration_number := 50,
                           neighborhood_sphere_radius := 20.0, core_number := 4 } }]
      ∧ runConfigs (testFundamentalMatrixFitting demo 0 "data/head/head1.jpg"
        "data/head/head2.jpg" "out.txt" "in.txt" "matches.png"
        0.99 0 0.14 20.0 (-1)).1
        = [{ fps := -1,
             settings := { threshold := 0, spatial_coherence_weight := 0.14,
                           confidence := 0.99, max_local_optimization_number := 20,
                           max_iteration_number := 5000, min_iteration_number := 50,
                           neighborhood_sphere_radius := 20.0, core_number := 4 } }] := by
  constructor <;> rfl

/-- Witness of `run_started_with_given_settings`: confidence 1.5 with both images
loading. -/
theorem run_started_with_given_settings_witness :
    ((demo.imread "data/head/head1.jpg").isSome ∧ (demo.imread "data/head/head2.jpg").isSome)
      ∧ ∃ g, runConfigs (testFundamentalMatrixFitting demo 0 "data/head/head1.jpg"
              "data/head/head2.jpg" "out.txt" "in.txt" "matches.png"
              1.5 2.00 0.14 20.0 (-1)).1 = [g]
          ∧ g.settings.confidence = 1.5 ∧ g.settings.threshold = 2.00 ∧ g.fps = -1 :=
  ⟨by decide,
   (run_started_with_given_settings demo 0 "data/head/head1.jpg" "data/head/head2.jpg"
      "out.txt" "in.txt" "matches.png" 1.5 2.00 0.14 20.0 (-1)).1 (by decide)⟩

/-- Witness of `main_configurations_satisfy_constraints`: with every image
loading, `main` starts a run, and the object it runs on meets the constraints. -/
theorem main_configurations_satisfy_constraints_witness :
    configure demo.gcransac 0.99 2.00 0.14 20.0 (-1) ∈ runConfigs (main demo 0)
      ∧ (0 < (configure demo.gcransac 0.99 2.00 0.14 20.0 (-1)).settings.confidence
          ∧ (configure demo.gcransac 0.99 2.00 0.14 20.0 (-1)).settings.confidence < 1)
      ∧ (configure demo.gcransac 0.99 2.00 0.14 20.0 (-1)).fps = -1 :=
  have hmem : configure demo.gcransac 0.99 2.00 0.14 20.0 (-1) ∈ runConfigs (main demo 0) :=
    List.mem_cons_self _ _
  have h := (main_configurations_satisfy_constraints demo 0 0 "" "" "" "" "" 0 0 0 0 0).1
    _ hmem
  ⟨hmem, h.1.1, h.2.1⟩

end GCRansac
